import Mathlib

/-!
Verification of the Source Entity Extractor of the Gradio MCP Server Builder.

The definitions below are a shallow embedding of `source/parser.py`
(`MCPParser.parse_file`, `MCPParser._extract_function_source`,
`MCPParser._build_signature_string`) and of the constant-deduplicating
file loop of `source/builder.py` (`GradioMCPBuilder._parse_input_files`,
`GradioMCPBuilder.build`).

Conventions of the embedding:
* Source text is a `String`; the parser splits it on a single newline,
  exactly as `content.split("\n")` does.
* Python's string primitives (`split`, `strip`, `startswith`, `join`,
  `in`) are modelled structurally over character lists (`pyLines`,
  `pyStrip`, `pyStartsWith`, `pyJoin`, `pyContains`) so that concrete
  runs reduce inside the kernel.
* The syntax tree handed to the parser by Python's `ast` module is
  modelled by `PyStmt` / `FunctionDef` / `PyExpr`.  Line numbers are
  1-based and, as in Python 3.8+, `FunctionDef.lineno` points at the
  `def` keyword line, never at a decorator line.
* A Python statement that raises is modelled with `Except String`;
  the only raise site reachable in span recovery is the list indexing
  `lines[node.lineno - 1]` (an `IndexError` when the line number lies
  beyond the end of the file), mirrored by an `Except.error`.
-/

deriving instance DecidableEq for Except

/-- Python `str.strip()` on one source line: whitespace removed from
both ends.  Implemented structurally over the character list so that
concrete runs reduce inside the kernel. -/
def pyStrip (s : String) : String :=
  String.mk (((s.toList.dropWhile Char.isWhitespace).reverse.dropWhile
    Char.isWhitespace).reverse)

/-- Python `line.startswith(p)`. -/
def pyStartsWith (s p : String) : Bool :=
  p.toList.isPrefixOf s.toList

/-- Python `c in line` for a one-character needle. -/
def pyContains (s : String) (c : Char) : Bool :=
  s.toList.contains c

/-- Python `sep.join(parts)`. -/
def pyJoin (sep : String) : List String → String
  | [] => ""
  | [a] => a
  | a :: rest => a ++ sep ++ pyJoin sep rest

/-- Helper for `pyLines`: accumulates the current line's characters in
reverse while scanning for newlines. -/
def pyLinesAux : List Char → List Char → List String
  | [], acc => [String.mk acc.reverse]
  | c :: cs, acc =>
    if c = '\n' then String.mk acc.reverse :: pyLinesAux cs []
    else pyLinesAux cs (c :: acc)

/-- Python `content.split("\n")`: always non-empty, `[""]` on empty
input, preserving empty segments. -/
def pyLines (content : String) : List String :=
  pyLinesAux content.toList []

/-- Leading-whitespace width of a raw line:
`len(line) - len(line.lstrip())` in the Python source. -/
def indentOf (line : String) : Nat :=
  line.toList.length - (line.toList.dropWhile Char.isWhitespace).length

/-- A parameter of a Python function: its name and the unparsed text of
its type annotation when present (`arg.arg`, `ast.unparse(arg.annotation)`). -/
structure PyArg where
  arg : String
  annot : Option String
deriving DecidableEq, Repr

/-- The `ast.arguments` record of a Python `FunctionDef`.  Default values
are never read by the extractor and are omitted. -/
structure PyArgs where
  posonlyargs : List PyArg
  args : List PyArg
  vararg : Option PyArg
  kwonlyargs : List PyArg
  kwarg : Option PyArg
deriving DecidableEq, Repr

/-- The fragment of Python's expression AST inspected by the decorator
test: `Call(func=Attribute(value=Name(id=ns), attr=a))` shapes and
everything else. -/
inductive PyExpr where
  | name (id : String)
  | attributeOf (value : PyExpr) (attrName : String)
  | call (func : PyExpr)
  | otherExpr
deriving DecidableEq, Repr

/-- An `ast.FunctionDef` node as consumed by the extractor: 1-based
`lineno` of the `def` line (Python 3.8+ semantics), decorator
expressions, arguments, unparsed return annotation, docstring
(`ast.get_docstring(node) or ""`). -/
structure FunctionDef where
  name : String
  args : PyArgs
  returns : Option String
  decorator_list : List PyExpr
  lineno : Nat
  docstring : String
deriving DecidableEq, Repr

/-- An assignment target: `ast.Name` or any other target form. -/
inductive AssignTarget where
  | nameTarget (id : String)
  | otherTarget
deriving DecidableEq, Repr

/-- An `ast.alias` in an import statement: name and optional `as` alias. -/
structure ImportAlias where
  name : String
  asname : Option String
deriving DecidableEq, Repr

/-- The top-level Python statements distinguished by `parse_file`:
everything it does not inspect collapses to `otherStmt`. -/
inductive PyStmt where
  | functionDef (fd : FunctionDef)
  | classDef (name : String) (body : List PyStmt) (lineno : Nat)
  | assign (targets : List AssignTarget) (lineno : Nat)
  | annAssign (target : AssignTarget) (annot : String) (lineno : Nat)
  | importStmt (names : List ImportAlias)
  | importFrom (module : Option String) (names : List ImportAlias)
  | otherStmt

/-- The decorator test of `parse_file` (parser.py lines 145-152):
an `ast.Call` whose `func` is `ast.Attribute` over `ast.Name` with
`value.id == "mcp"` and `attr == "tool"`. -/
def has_mcp_decorator (decorators : List PyExpr) : Bool :=
  decorators.any fun d =>
    match d with
    | PyExpr.call (PyExpr.attributeOf (PyExpr.name ns) a) => ns == "mcp" && a == "tool"
    | _ => false

/-- Backward decorator scan of `_extract_function_source`
(parser.py lines 277-283).  The first argument counts the indices still
to visit: a call with counter `i + 1` examines 0-based line `i`, exactly
like `for i in range(start_line - 1, -1, -1)`.  A stripped line starting
with `@` moves `start_line` to `i`; a non-blank line that is not a
comment breaks; blank lines and `#` comments are passed over. -/
def decoScanAux (lines : List String) : Nat → Nat → Nat
  | 0, start => start
  | i + 1, start =>
    let line := pyStrip (lines.getD i "")
    if pyStartsWith line "@" then decoScanAux lines i i
    else if line ≠ "" && !(pyStartsWith line "#") then start
    else decoScanAux lines i start

/-- Forward end-of-function scan of `_extract_function_source`
(parser.py lines 290-302).  Visits 0-based lines `i, i+1, ...` while
fuel lasts; fuel exhaustion returns `lines.length`, the Python
default `end_line = len(lines)`.  A non-blank line at indentation
`≤ func_indent` whose stripped text starts with `def `, `class ` or `@`
is the exclusive end of the span. -/
def findEndAux (lines : List String) (funcIndent : Nat) : Nat → Nat → Nat
  | 0, _ => lines.length
  | fuel + 1, i =>
    let line := lines.getD i ""
    if pyStrip line ≠ "" then
      if indentOf line ≤ funcIndent &&
          (pyStartsWith (pyStrip line) "def " || pyStartsWith (pyStrip line) "class " ||
            pyStartsWith (pyStrip line) "@") then i
      else findEndAux lines funcIndent fuel (i + 1)
    else findEndAux lines funcIndent fuel (i + 1)

/-- `MCPParser._extract_function_source` (parser.py lines 268-308):
split the content on newlines, walk decorators backward from
`node.lineno - 1`, find the exclusive end line forward from
`node.lineno`, and join the selected raw lines.  Raises (`Except.error`)
exactly when `lines[node.lineno - 1]` would raise `IndexError`. -/
def extract_function_source (content : String) (node : FunctionDef) : Except String String :=
  let lines := pyLines content
  if h : node.lineno - 1 < lines.length then
    let start0 := node.lineno - 1
    let startLine := decoScanAux lines start0 start0
    let funcIndent := indentOf (lines.get ⟨node.lineno - 1, h⟩)
    let endLine := findEndAux lines funcIndent (lines.length - node.lineno) node.lineno
    Except.ok (pyJoin "\n" ((lines.drop startLine).take (endLine - startLine)))
  else Except.error "list index out of range"

/-- `MCPParser._build_signature_string` (parser.py lines 310-330): only
`node.args.args` is traversed; each parameter is rendered `name` or
`name: type`; a return annotation appends ` -> type`. -/
def build_signature_string (node : FunctionDef) : String :=
  let args := node.args.args.map fun a =>
    match a.annot with
    | some t => a.arg ++ ": " ++ t
    | none => a.arg
  let signature := "(" ++ pyJoin ", " args ++ ")"
  match node.returns with
  | some r => signature ++ " -> " ++ r
  | none => signature

/-- The `MCPFunction` record as populated by `parse_file` (parser.py
lines 158-163 and 179-184): the code always passes `func=None`, so the
constructor's `inspect` fallback runs and the caller then overwrites
`source_code` and `line_number` with the extracted span and
`node.lineno`; the fields below are those final values. -/
structure MCPFunction where
  name : String
  docstring : String
  signature : String
  source_code : String
  line_number : Nat
deriving DecidableEq, Repr

/-- The body of one iteration of the `parse_file` entity loop for a
function node: recover the span, build the signature, and populate the
record (parser.py lines 154-163, identically 175-184, 206-217 and
229-240).  Span recovery is the only fallible step. -/
def process_function (content : String) (node : FunctionDef) : Except String MCPFunction :=
  match extract_function_source content node with
  | Except.error e => Except.error e
  | Except.ok src =>
    Except.ok ⟨node.name, node.docstring, build_signature_string node, src, node.lineno⟩

/-- The class branch of `parse_file` (parser.py lines 193-248): iterate
the class body's immediate `FunctionDef` nodes, classify each by the
decorator test, and catch per-entity failures (the `try`/`except` around
each method).  Returns `(mcp_functions, helper_functions)` appended in
encounter order. -/
def parse_class_body (content : String) : List PyStmt → List MCPFunction × List MCPFunction
  | [] => ([], [])
  | PyStmt.functionDef fd :: rest =>
    let tail := parse_class_body content rest
    if has_mcp_decorator fd.decorator_list then
      match process_function content fd with
      | Except.ok f => (f :: tail.1, tail.2)
      | Except.error _ => tail
    else
      match process_function content fd with
      | Except.ok f => (tail.1, f :: tail.2)
      | Except.error _ => tail
  | _ :: rest => parse_class_body content rest

/-- The top-level entity loop of `parse_file` (parser.py lines 141-248):
classify every top-level `FunctionDef` by the decorator test, dispatch
`ClassDef` bodies to the class branch, skip everything else; each
entity's extraction failure is caught locally.  Returns
`(mcp_functions, helper_functions)` in encounter order. -/
def parse_top_level (content : String) : List PyStmt → List MCPFunction × List MCPFunction
  | [] => ([], [])
  | PyStmt.functionDef fd :: rest =>
    let tail := parse_top_level content rest
    if has_mcp_decorator fd.decorator_list then
      match process_function content fd with
      | Except.ok f => (f :: tail.1, tail.2)
      | Except.error _ => tail
    else
      match process_function content fd with
      | Except.ok f => (tail.1, f :: tail.2)
      | Except.error _ => tail
  | PyStmt.classDef _ body _ :: rest =>
    let inner := parse_class_body content body
    let tail := parse_top_level content rest
    (inner.1 ++ tail.1, inner.2 ++ tail.2)
  | _ :: rest => parse_top_level content rest

/-- The import lines one top-level statement contributes
(parser.py lines 64-77): one `import N` line per alias of an
`ast.Import` (the `as` alias is dropped); one combined line per
`ast.ImportFrom` with a module (`*` kept as a wildcard, `as` aliases
dropped); nothing for a module-less `from`-import. -/
def import_lines : PyStmt → List String
  | PyStmt.importStmt aliases => aliases.map fun a => "import " ++ a.name
  | PyStmt.importFrom module names =>
    match module with
    | none => []
    | some m =>
      match names with
      | [] => []
      | first :: _ =>
        if first.name == "*" then ["from " ++ m ++ " import *"]
        else
          ["from " ++ m ++ " import " ++ pyJoin ", " (names.map fun a => a.name)]
  | _ => []

/-- The whole import-collection pass over `tree.body`
(parser.py lines 65-77), in encounter order. -/
def collect_module_imports : List PyStmt → List String
  | [] => []
  | s :: rest => import_lines s ++ collect_module_imports rest

/-- Forward end-of-assignment scan of the constant extractor
(parser.py lines 104-120).  Same shape as `findEndAux` but with the
additional boundary disjunct: a line containing `=` whose stripped text
does not start with `#`. -/
def constEndAux (lines : List String) (assignIndent : Nat) : Nat → Nat → Nat
  | 0, _ => lines.length
  | fuel + 1, i =>
    let line := lines.getD i ""
    if pyStrip line ≠ "" then
      if indentOf line ≤ assignIndent &&
          (pyStartsWith (pyStrip line) "def " || pyStartsWith (pyStrip line) "class " ||
            pyStartsWith (pyStrip line) "@" ||
            (pyContains line '=' && !(pyStartsWith (pyStrip line) "#"))) then i
      else constEndAux lines assignIndent fuel (i + 1)
    else constEndAux lines assignIndent fuel (i + 1)

/-- Span recovery for one constant assignment (parser.py lines 89-135):
recover the multi-line text from `node.lineno`, then keep it only when
it is non-empty, not a comment, and contains `=`.  `Except.error`
mirrors the `IndexError` of `lines[start_line]` for an out-of-range
line number, which the surrounding `try` turns into a skip. -/
def extract_constant_text (content : String) (lineno : Nat) : Except String (Option String) :=
  let lines := pyLines content
  if h : lineno - 1 < lines.length then
    let start0 := lineno - 1
    let assignIndent := indentOf (lines.get ⟨lineno - 1, h⟩)
    let endLine := constEndAux lines assignIndent (lines.length - (start0 + 1)) (start0 + 1)
    let text := pyStrip (pyJoin "\n" ((lines.drop start0).take (endLine - start0)))
    if text ≠ "" && !(pyStartsWith text "#") && pyContains text '=' then Except.ok (some text)
    else Except.ok none
  else Except.error "list index out of range"

/-- The inner target loop of the constant extractor (parser.py lines
87-139): one extraction attempt per `ast.Name` target, failures caught
per target, non-`Name` targets skipped. -/
def target_constants (content : String) (lineno : Nat) : List AssignTarget → List String
  | [] => []
  | AssignTarget.nameTarget _ :: rest =>
    match extract_constant_text content lineno with
    | Except.ok (some t) => t :: target_constants content lineno rest
    | _ => target_constants content lineno rest
  | _ :: rest => target_constants content lineno rest

/-- The constant-extraction pass over `tree.body` (parser.py lines
85-139): only `ast.Assign` nodes are inspected; `ast.AnnAssign` and all
other statement kinds contribute nothing. -/
def extract_constants (content : String) : List PyStmt → List String
  | [] => []
  | PyStmt.assign targets lineno :: rest =>
    target_constants content lineno targets ++ extract_constants content rest
  | _ :: rest => extract_constants content rest

/-- The constant name used as deduplication key by the builder
(builder.py line 78): `constant.split("=")[0].strip()`. -/
def const_name (constant : String) : String :=
  pyStrip (String.mk (constant.toList.takeWhile fun c => c ≠ '='))

/-- The per-file constant-deduplication loop of
`GradioMCPBuilder._parse_input_files` (builder.py lines 75-88): state is
the set of seen names and the accumulated `module_constants` list; a
constant without `=` is ignored, a constant whose name was already seen
is dropped, otherwise its name is recorded and the text appended. -/
def add_constants : List String → List String → List String → List String × List String
  | seen, acc, [] => (seen, acc)
  | seen, acc, c :: rest =>
    if pyContains c '=' then
      let n := const_name c
      if n ∈ seen then add_constants seen acc rest
      else add_constants (n :: seen) (acc ++ [c]) rest
    else add_constants seen acc rest

/-- The per-file results `MCPParser.parse_file` hands back to the
builder, restricted to the fields `_parse_input_files` reads. -/
structure ParseResult where
  mcp_functions : List MCPFunction
  helper_functions : List MCPFunction
  module_constants : List String

/-- The file loop of `_parse_input_files` (builder.py lines 67-96):
extend the run-wide entity lists and thread the constant-dedup state
through every file in order. -/
def parse_files_loop :
    List MCPFunction → List String → List String → List ParseResult →
      List MCPFunction × List String × List String
  | mcps, seen, consts, [] => (mcps, seen, consts)
  | mcps, seen, consts, r :: rest =>
    let p := add_constants seen consts r.module_constants
    parse_files_loop (mcps ++ r.mcp_functions) p.1 p.2 rest

/-- `GradioMCPBuilder._parse_input_files` (builder.py lines 62-102):
run the file loop, then raise `ValueError` when no MCP function was
found in any file; otherwise yield the aggregated MCP functions and
deduplicated constants. -/
def parse_input_files (results : List ParseResult) :
    Except String (List MCPFunction × List String) :=
  let s := parse_files_loop [] [] [] results
  if s.1.isEmpty then Except.error "No MCP functions found in input files"
  else Except.ok (s.1, s.2.2)

/-- The pipeline steps `GradioMCPBuilder.build` runs after parsing
(builder.py lines 49-60), in order; their bodies are external to the
extractor core and only their occurrence matters here. -/
inductive BuildStep where
  | improveDocstrings
  | generateTestPrompts
  | createOutputDirectories
  | generateServerFiles
  | generateClientFiles
  | generateDocumentation
  | generateRequirements
  | generateConfigFile
deriving DecidableEq, Repr

/-- Outcome of a `build` run: which pipeline steps executed, and the
final result (an uncaught exception is `Except.error`). -/
structure BuildOutcome where
  stepsRun : List BuildStep
  result : Except String Unit
deriving DecidableEq, Repr

/-- `GradioMCPBuilder.build` (builder.py lines 49-60): `_parse_input_files`
runs first and its `ValueError` propagates, so a parse-stage failure
leaves every later step unexecuted; on success all remaining steps run
in the listed order. -/
def build (results : List ParseResult) : BuildOutcome :=
  match parse_input_files results with
  | Except.error e => ⟨[], Except.error e⟩
  | Except.ok _ =>
    ⟨[BuildStep.improveDocstrings, BuildStep.generateTestPrompts,
      BuildStep.createOutputDirectories, BuildStep.generateServerFiles,
      BuildStep.generateClientFiles, BuildStep.generateDocumentation,
      BuildStep.generateRequirements, BuildStep.generateConfigFile],
      Except.ok ()⟩

/-! ## Helper lemmas -/

/-- The dedup loop preserves the invariant that accumulated constants
have pairwise-distinct names and that every accumulated name has been
recorded as seen. -/
theorem add_constants_inv (cs : List String) : ∀ seen acc : List String,
    (acc.map const_name).Nodup → (∀ n ∈ acc.map const_name, n ∈ seen) →
    (((add_constants seen acc cs).2).map const_name).Nodup ∧
    (∀ n ∈ ((add_constants seen acc cs).2).map const_name, n ∈ (add_constants seen acc cs).1) := by
  induction cs with
  | nil => intro seen acc h1 h2; exact ⟨h1, h2⟩
  | cons c rest ih =>
    intro seen acc h1 h2
    by_cases hc : pyContains c '=' = true
    · by_cases hm : const_name c ∈ seen
      · simpa [add_constants, hc, hm] using ih seen acc h1 h2
      · have hnodup : ((acc ++ [c]).map const_name).Nodup := by
          rw [List.map_append]
          refine List.nodup_append.mpr ⟨h1, List.nodup_singleton _, ?_⟩
          intro x hx hy
          rw [List.map_singleton, List.mem_singleton] at hy
          exact hm (hy ▸ h2 x hx)
        have hseen : ∀ n ∈ (acc ++ [c]).map const_name, n ∈ const_name c :: seen := by
          intro n hn
          rw [List.map_append, List.mem_append] at hn
          rcases hn with hn | hn
          · exact List.mem_cons_of_mem _ (h2 n hn)
          · rw [List.map_singleton, List.mem_singleton] at hn
            exact hn ▸ List.mem_cons_self _ _
        simpa [add_constants, hc, hm] using ih _ _ hnodup hseen
    · simpa [add_constants, hc] using ih seen acc h1 h2

/-- The file loop preserves the name-uniqueness invariant of the
constant accumulator. -/
theorem parse_files_loop_inv (results : List ParseResult) : ∀ mcps seen consts,
    (consts.map const_name).Nodup → (∀ n ∈ consts.map const_name, n ∈ seen) →
    (((parse_files_loop mcps seen consts results).2.2).map const_name).Nodup := by
  induction results with
  | nil => intro mcps seen consts h1 _; simpa [parse_files_loop] using h1
  | cons r rest ih =>
    intro mcps seen consts h1 h2
    obtain ⟨g1, g2⟩ := add_constants_inv r.module_constants seen consts h1 h2
    simpa [parse_files_loop] using ih _ _ _ g1 g2

/-- The MCP-function component of the file loop is the concatenation of
the per-file MCP-function lists, in file order. -/
theorem parse_files_loop_mcps (results : List ParseResult) : ∀ mcps seen consts,
    (parse_files_loop mcps seen consts results).1 =
      mcps ++ (results.map fun r => r.mcp_functions).flatten := by
  induction results with
  | nil => intro mcps seen consts; simp [parse_files_loop]
  | cons r rest ih => intro mcps seen consts; simp [parse_files_loop, ih]

/-- When span recovery of a constant raises, every `Name`-target
attempt of that assignment is skipped and nothing is produced. -/
theorem target_constants_of_error (content : String) (lineno : Nat) (e : String)
    (h : extract_constant_text content lineno = Except.error e) :
    ∀ tgts, target_constants content lineno tgts = [] := by
  intro tgts
  induction tgts with
  | nil => rfl
  | cons t rest ih => cases t <;> simp [target_constants, h, ih]

/-! ## Claim theorems -/

/-- C1, counterexample: a class with one `@mcp.tool()` method
`m(self, x: str)` yields one entry-point record named `m` whose
signature is `(self, x: str)`, not `(x: str)` — the first parameter
named `self` is NOT dropped by the signature synthesizer. -/
theorem c1_self_not_dropped_counterexample :
    (parse_top_level "class C:\n    @mcp.tool()\n    def m(self, x: str):\n        return x"
      [PyStmt.classDef "C" [PyStmt.functionDef ⟨"m",
        ⟨[], [⟨"self", none⟩, ⟨"x", some "str"⟩], none, [], none⟩, none,
        [PyExpr.call (PyExpr.attributeOf (PyExpr.name "mcp") "tool")], 3, ""⟩] 1]).1.map
      (fun f => f.signature) = ["(self, x: str)"] ∧
    ("(self, x: str)" : String) ≠ "(x: str)" := by
  decide

/-- C1, amended: a class containing one `@mcp.tool()`-decorated method
`m(self, x: str)` yields exactly one entry-point entity named `m`, and
its synthesized signature retains the `self` parameter as an ordinary
first parameter: the signature equals `(self, x: str)`. -/
theorem c1_class_method_signature_retains_self :
    parse_top_level "class C:\n    @mcp.tool()\n    def m(self, x: str):\n        return x"
      [PyStmt.classDef "C" [PyStmt.functionDef ⟨"m",
        ⟨[], [⟨"self", none⟩, ⟨"x", some "str"⟩], none, [], none⟩, none,
        [PyExpr.call (PyExpr.attributeOf (PyExpr.name "mcp") "tool")], 3, ""⟩] 1] =
    ([⟨"m", "", "(self, x: str)",
       "    @mcp.tool()\n    def m(self, x: str):\n        return x", 3⟩], []) := by
  decide

/-- C2, counterexample: for a decorator separated from its `def` by a
blank line, the recovered span DOES include the decorator (and the
blank line): the backward scan is not stopped by the blank line. -/
theorem c2_blank_line_counterexample :
    extract_function_source "@deco()\n\ndef f():\n    pass"
      ⟨"f", ⟨[], [], none, [], none⟩, none, [PyExpr.call (PyExpr.name "deco")], 3, ""⟩ =
      Except.ok "@deco()\n\ndef f():\n    pass" ∧
    ("@deco()\n\ndef f():\n    pass" : String) ≠ "def f():\n    pass" := by
  decide

/-- C2, amended: in span recovery's backward decorator scan a blank
line does not stop the scan — it is skipped and the walk continues
upward, so a decorator separated from the definition (or from another
decorator) by blank lines is still included in the recovered span. -/
theorem c2_blank_line_skipped (lines : List String) (i start : Nat)
    (h : pyStrip (lines.getD i "") = "") :
    decoScanAux lines (i + 1) start = decoScanAux lines i start := by
  have h1 : pyStartsWith "" "@" = false := by decide
  simp only [decoScanAux]
  rw [h, h1]
  simp

/-- Witness for `c2_blank_line_skipped` at a concrete blank line. -/
theorem c2_blank_line_skipped_witness :
    pyStrip (["@deco()", "", "def f():", "    pass"].getD 1 "") = "" ∧
    decoScanAux ["@deco()", "", "def f():", "    pass"] 2 2 =
      decoScanAux ["@deco()", "", "def f():", "    pass"] 1 2 :=
  ⟨by decide, c2_blank_line_skipped ["@deco()", "", "def f():", "    pass"] 1 2 (by decide)⟩

/-- C3, counterexample: a top-level assignment `X = 1` following the
body of `f` does NOT terminate the function's recovered span — the span
runs to end of file and includes the assignment line. -/
theorem c3_assignment_boundary_counterexample :
    extract_function_source "def f():\n    return 1\nX = 1"
      ⟨"f", ⟨[], [], none, [], none⟩, none, [], 1, ""⟩ =
      Except.ok "def f():\n    return 1\nX = 1" ∧
    ("def f():\n    return 1\nX = 1" : String) ≠ "def f():\n    return 1" := by
  decide

/-- C3, amended: the forward scan ending a function's span stops only
at a non-blank line of indentation ≤ the definition's whose stripped
text starts with `def `, `class `, or `@`; a line that merely contains
an assignment is not a boundary and the scan walks past it (the
assignment clause belongs to the constant extractor only). -/
theorem c3_assignment_is_not_function_boundary (lines : List String) (ind fuel i : Nat)
    (h1 : pyStrip (lines.getD i "") ≠ "")
    (h2 : pyStartsWith (pyStrip (lines.getD i "")) "def " = false)
    (h3 : pyStartsWith (pyStrip (lines.getD i "")) "class " = false)
    (h4 : pyStartsWith (pyStrip (lines.getD i "")) "@" = false) :
    findEndAux lines ind (fuel + 1) i = findEndAux lines ind fuel (i + 1) := by
  simp only [findEndAux]
  rw [h2, h3, h4]
  simp

/-- Witness for `c3_assignment_is_not_function_boundary` at the
assignment line `X = 1`. -/
theorem c3_assignment_is_not_function_boundary_witness :
    pyStrip ((["def f():", "    return 1", "X = 1"].getD 2 "")) ≠ "" ∧
    pyStartsWith (pyStrip (["def f():", "    return 1", "X = 1"].getD 2 "")) "def " = false ∧
    pyStartsWith (pyStrip (["def f():", "    return 1", "X = 1"].getD 2 "")) "class " = false ∧
    pyStartsWith (pyStrip (["def f():", "    return 1", "X = 1"].getD 2 "")) "@" = false ∧
    findEndAux ["def f():", "    return 1", "X = 1"] 0 1 2 =
      findEndAux ["def f():", "    return 1", "X = 1"] 0 0 3 :=
  ⟨by decide, by decide, by decide, by decide,
    c3_assignment_is_not_function_boundary ["def f():", "    return 1", "X = 1"] 0 0 2
      (by decide) (by decide) (by decide) (by decide)⟩

/-- C4, counterexample: a function preceded immediately by two
decorator lines (`def` on line 3, decorators on lines 1-2) is emitted
with `line_number = 3`, the `def` line — not line 1 where the recovered
span (which does include both decorators) begins. -/
theorem c4_start_line_counterexample :
    process_function "@a()\n@b()\ndef f():\n    pass"
      ⟨"f", ⟨[], [], none, [], none⟩, none,
        [PyExpr.call (PyExpr.name "a"), PyExpr.call (PyExpr.name "b")], 3, ""⟩ =
      Except.ok ⟨"f", "", "()", "@a()\n@b()\ndef f():\n    pass", 3⟩ ∧
    (3 : Nat) ≠ 1 := by
  decide

/-- C4, amended: for every successfully extracted entity the recorded
`startLine` (`line_number`) equals the `def` line of the node in all
cases — also when decorators are present and the recovered span begins
at the first decorator line. -/
theorem c4_line_number_is_def_line (content : String) (fd : FunctionDef) (f : MCPFunction)
    (h : process_function content fd = Except.ok f) :
    f.line_number = fd.lineno := by
  unfold process_function at h
  cases he : extract_function_source content fd with
  | error e => rw [he] at h; cases h
  | ok src =>
    rw [he] at h
    cases h
    rfl

/-- Witness for `c4_line_number_is_def_line` on a concrete decorated
function. -/
theorem c4_line_number_is_def_line_witness :
    process_function "@a()\n@b()\ndef f():\n    pass"
      ⟨"f", ⟨[], [], none, [], none⟩, none,
        [PyExpr.call (PyExpr.name "a"), PyExpr.call (PyExpr.name "b")], 3, ""⟩ =
      Except.ok ⟨"f", "", "()", "@a()\n@b()\ndef f():\n    pass", 3⟩ ∧
    (⟨"f", "", "()", "@a()\n@b()\ndef f():\n    pass", 3⟩ : MCPFunction).line_number = 3 :=
  ⟨by decide, c4_line_number_is_def_line "@a()\n@b()\ndef f():\n    pass"
    ⟨"f", ⟨[], [], none, [], none⟩, none,
      [PyExpr.call (PyExpr.name "a"), PyExpr.call (PyExpr.name "b")], 3, ""⟩
    ⟨"f", "", "()", "@a()\n@b()\ndef f():\n    pass", 3⟩ (by decide)⟩

/-- C5: across a multi-file run at most one constant survives per
deduplication name, and on the two-file scenario `X = 1` then `X = 2`
the builder keeps exactly the first-seen `X = 1` (the later duplicate
is dropped). -/
theorem c5_constant_dedup_first_seen_wins :
    (∀ results : List ParseResult,
      (((parse_files_loop [] [] [] results).2.2).map const_name).Nodup) ∧
    parse_input_files
      [⟨[⟨"f", "", "()", "def f():\n    pass", 1⟩], [], ["X = 1"]⟩,
       ⟨[], [], ["X = 2"]⟩] =
      Except.ok ([⟨"f", "", "()", "def f():\n    pass", 1⟩], ["X = 1"]) := by
  constructor
  · intro results
    exact parse_files_loop_inv results [] [] [] (by simp) (by simp)
  · decide

/-- C6: when every processed file contributed zero MCP functions, the
build aborts with the `ValueError` of `_parse_input_files` and no later
pipeline step (docstring improvement, prompt generation, directory
creation, server/client/documentation/requirements/config generation)
has run. -/
theorem c6_no_entry_points_aborts_before_generation (results : List ParseResult)
    (h : ∀ r ∈ results, r.mcp_functions = []) :
    build results = ⟨[], Except.error "No MCP functions found in input files"⟩ := by
  have hm : (parse_files_loop [] [] [] results).1 = [] := by
    rw [parse_files_loop_mcps]
    simp only [List.nil_append, List.flatten_eq_nil_iff]
    intro l hl
    rw [List.mem_map] at hl
    obtain ⟨r, hr, hrl⟩ := hl
    exact hrl ▸ h r hr
  have hp : parse_input_files results = Except.error "No MCP functions found in input files" := by
    simp only [parse_input_files]
    rw [hm]
    rfl
  unfold build
  rw [hp]

/-- Witness for `c6_no_entry_points_aborts_before_generation` on one
file holding only a helper and a constant. -/
theorem c6_no_entry_points_witness :
    (∀ r ∈ ([⟨[], [⟨"h", "", "()", "def h():\n    pass", 1⟩], ["X = 1"]⟩] : List ParseResult),
      r.mcp_functions = []) ∧
    build [⟨[], [⟨"h", "", "()", "def h():\n    pass", 1⟩], ["X = 1"]⟩] =
      ⟨[], Except.error "No MCP functions found in input files"⟩ :=
  ⟨by decide, c6_no_entry_points_aborts_before_generation
    [⟨[], [⟨"h", "", "()", "def h():\n    pass", 1⟩], ["X = 1"]⟩] (by decide)⟩

/-- C7: per-entity failure containment.  A top-level function, a class
method, or a constant whose span recovery raises is dropped alone: the
rest of the file's statements parse exactly as if the failing entity
were absent. -/
theorem c7_failure_isolation :
    (∀ (content : String) (pre post : List PyStmt) (fd : FunctionDef) (e : String),
      process_function content fd = Except.error e →
      parse_top_level content (pre ++ PyStmt.functionDef fd :: post) =
        parse_top_level content (pre ++ post)) ∧
    (∀ (content : String) (pre post : List PyStmt) (fd : FunctionDef) (e : String),
      process_function content fd = Except.error e →
      parse_class_body content (pre ++ PyStmt.functionDef fd :: post) =
        parse_class_body content (pre ++ post)) ∧
    (∀ (content : String) (pre post : List PyStmt) (tgts : List AssignTarget)
        (lineno : Nat) (e : String),
      extract_constant_text content lineno = Except.error e →
      extract_constants content (pre ++ PyStmt.assign tgts lineno :: post) =
        extract_constants content (pre ++ post)) := by
  refine ⟨?_, ?_, ?_⟩
  · intro content pre post fd e h
    induction pre with
    | nil => simp [parse_top_level, h]
    | cons p rest ih => cases p <;> simp [parse_top_level, ih]
  · intro content pre post fd e h
    induction pre with
    | nil => simp [parse_class_body, h]
    | cons p rest ih => cases p <;> simp [parse_class_body, ih]
  · intro content pre post tgts lineno e h
    induction pre with
    | nil => simp [extract_constants, target_constants_of_error content lineno e h]
    | cons p rest ih => cases p <;> simp [extract_constants, ih]

/-- Witness for `c7_failure_isolation`: a function node and an
assignment node whose recorded line number lies past the end of the
one-line file, raising `IndexError` during span recovery, next to a
healthy helper that still parses. -/
theorem c7_failure_isolation_witness :
    (process_function "def g():\n    pass"
        ⟨"bad", ⟨[], [], none, [], none⟩, none, [], 9, ""⟩ =
      Except.error "list index out of range" ∧
     parse_top_level "def g():\n    pass"
        ([PyStmt.functionDef ⟨"g", ⟨[], [], none, [], none⟩, none, [], 1, ""⟩] ++
          PyStmt.functionDef ⟨"bad", ⟨[], [], none, [], none⟩, none, [], 9, ""⟩ :: []) =
       parse_top_level "def g():\n    pass"
        ([PyStmt.functionDef ⟨"g", ⟨[], [], none, [], none⟩, none, [], 1, ""⟩] ++ [])) ∧
    (parse_class_body "def g():\n    pass"
        ([] ++ PyStmt.functionDef ⟨"bad", ⟨[], [], none, [], none⟩, none, [], 9, ""⟩ :: []) =
      parse_class_body "def g():\n    pass" ([] ++ [])) ∧
    (extract_constant_text "X = 1" 9 = Except.error "list index out of range" ∧
     extract_constants "X = 1"
        ([PyStmt.assign [AssignTarget.nameTarget "X"] 1] ++
          PyStmt.assign [AssignTarget.nameTarget "Y"] 9 :: []) =
       extract_constants "X = 1" ([PyStmt.assign [AssignTarget.nameTarget "X"] 1] ++ [])) :=
  ⟨⟨by decide, c7_failure_isolation.1 "def g():\n    pass"
      [PyStmt.functionDef ⟨"g", ⟨[], [], none, [], none⟩, none, [], 1, ""⟩] []
      ⟨"bad", ⟨[], [], none, [], none⟩, none, [], 9, ""⟩ "list index out of range" (by decide)⟩,
   c7_failure_isolation.2.1 "def g():\n    pass" [] []
      ⟨"bad", ⟨[], [], none, [], none⟩, none, [], 9, ""⟩ "list index out of range" (by decide),
   ⟨by decide, c7_failure_isolation.2.2 "X = 1"
      [PyStmt.assign [AssignTarget.nameTarget "X"] 1] [] [AssignTarget.nameTarget "Y"] 9
      "list index out of range" (by decide)⟩⟩

/-- C8, counterexample: a function whose only parameters are `*args`,
a keyword-only `k`, and `**kwargs` gets the empty signature `()` — the
variadic and keyword-only parameters are NOT included as ordinary named
parameters. -/
theorem c8_variadic_counterexample :
    build_signature_string ⟨"f",
      ⟨[], [], some ⟨"args", none⟩, [⟨"k", none⟩], some ⟨"kwargs", none⟩⟩, none, [], 1, ""⟩ =
      "()" ∧
    ("()" : String) ≠ "(args, k, kwargs)" := by
  decide

/-- C8, amended: the signature synthesizer reads only the plain
positional-or-keyword parameter list; positional-only, variadic
(`*args`), keyword-only, and `**kwargs` parameters are all omitted from
the signature string. -/
theorem c8_signature_ignores_variadic (n : String) (pos a kwo : List PyArg)
    (va kwa : Option PyArg) (ret : Option String) (deco : List PyExpr)
    (ln : Nat) (doc : String) :
    build_signature_string ⟨n, ⟨pos, a, va, kwo, kwa⟩, ret, deco, ln, doc⟩ =
      build_signature_string ⟨n, ⟨[], a, none, [], none⟩, ret, deco, ln, doc⟩ := rfl

/-- C9: an annotated top-level assignment `X: T = value` is an
`AnnAssign` node, which the constant extractor never inspects: it
contributes no constant, while a plain assignment with a simple-name
target is collected. -/
theorem c9_annotated_assignment_not_collected :
    (∀ (content : String) (pre post : List PyStmt) (tgt : AssignTarget)
        (t : String) (ln : Nat),
      extract_constants content (pre ++ PyStmt.annAssign tgt t ln :: post) =
        extract_constants content (pre ++ post)) ∧
    extract_constants "X: int = 1" [PyStmt.annAssign (AssignTarget.nameTarget "X") "int" 1] = [] ∧
    extract_constants "X = 1" [PyStmt.assign [AssignTarget.nameTarget "X"] 1] = ["X = 1"] := by
  refine ⟨?_, by decide, by decide⟩
  intro content pre post tgt t ln
  induction pre with
  | nil => simp [extract_constants]
  | cons p rest ih => cases p <;> simp [extract_constants, ih]

/-- C10: the import collector drops `as` aliases in both plain imports
and from-imports, and a from-import without a module yields no import
line at all. -/
theorem c10_imports_drop_aliases (b B : Option String) :
    import_lines (PyStmt.importStmt [⟨"a", b⟩]) = ["import a"] ∧
    import_lines (PyStmt.importFrom (some "M") [⟨"A", B⟩]) = ["from M import A"] ∧
    import_lines (PyStmt.importFrom none [⟨"x", none⟩]) = [] :=
  ⟨rfl, rfl, rfl⟩
